import Mathlib

/-!
Shallow embedding of `src/main.py` — an HTTP reverse proxy in front of the
OpenAI API (FastAPI + httpx) — together with theorems settling the frozen
claims about its forwarding pipeline.

Modelling conventions:
* Inbound paths are stored without their leading slash: the wire path
  `/v1/models` is the model path `"v1/models"`, the wire path `/` is `""`.
  This matches what the FastAPI `{path:path}` converters capture.
* Inbound header names are lowercase, as Starlette normalizes them before
  `dict(request.headers)` is taken in `proxy_request`.
* Python dicts are association lists; assignment updates in place or appends.
* The outbound HTTP call is abstracted as a function from the outbound
  request to a `DispatchResult`, covering the `httpx` exception taxonomy the
  code catches (`TimeoutException`, other `RequestError`, anything else).
* JSON parsing of the upstream body (`response.json()`) is abstracted by an
  `Option Json` field of the upstream response: `none` means parsing raised.
-/

namespace ProxyRender

/-- The HTTP methods the user-defined routes accept.  `GET`,`POST`,`PUT`,
`DELETE`,`PATCH`,`OPTIONS` are listed in the `api_route` decorators; `HEAD`
is accepted as well because Starlette adds `HEAD` to every route whose
method set contains `GET`.  Any other wire method never reaches the
handlers and is outside the model. -/
inductive Method
  | GET | HEAD | POST | PUT | DELETE | PATCH | OPTIONS
deriving DecidableEq, Repr

/-- JSON values, used for response bodies. -/
inductive Json
  | null
  | bool (b : Bool)
  | num (n : Int)
  | str (s : String)
  | arr (xs : List Json)
  | obj (kvs : List (String × Json))

/-- Python string slicing `s[:n]` (by code points). -/
def strTake (s : String) (n : Nat) : String := ⟨s.data.take n⟩

/-- Python `s.startswith(pre)`. -/
def strStartsWith (s pre : String) : Bool := pre.data.isPrefixOf s.data

/-- Python dict assignment `d[k] = v`: update in place if the key exists,
append otherwise. -/
def dictSet (d : List (String × String)) (k v : String) : List (String × String) :=
  if (d.lookup k).isSome then
    d.map (fun kv => if kv.1 = k then (k, v) else kv)
  else
    d ++ [(k, v)]

/-- An inbound HTTP request as the handlers see it. -/
structure InboundRequest where
  method : Method
  path : String
  headers : List (String × String)
  body : String
  query : List (String × String)
deriving DecidableEq, Repr

/-- The outbound request handed to `client.request` in `proxy_request`. -/
structure OutboundRequest where
  method : Method
  url : String
  headers : List (String × String)
  body : String
  query : List (String × String)
deriving DecidableEq, Repr

/-- A response from upstream: status code, the `content-type` header value
(`""` when absent), the raw text, and the result of `response.json()`
(`none` when parsing raises). -/
structure UpstreamResponse where
  status : Nat
  contentType : String
  text : String
  json : Option Json

/-- Outcome of the single outbound call in `proxy_request`, mirroring the
`except` clauses: `httpx.TimeoutException`, any other `httpx.RequestError`,
and any other exception. -/
inductive DispatchResult
  | success (r : UpstreamResponse)
  | timeout
  | requestError
  | otherError

/-- The response returned to the caller. -/
structure HttpResponse where
  status : Nat
  body : Json
  headers : List (String × String)

/-- Result of routing one inbound request: handled locally (no outbound
call), or proxied with exactly the given outbound request. -/
inductive RouteOutcome
  | local (resp : HttpResponse)
  | proxied (out : OutboundRequest) (resp : HttpResponse)

/-- `raise HTTPException(status_code, detail)` as FastAPI renders it. -/
def httpError (status : Nat) (detail : String) : HttpResponse :=
  { status := status, body := Json.obj [("detail", Json.str detail)], headers := [] }

def OPENAI_API_URL : String := "https://api.openai.com"

/-- The fixed header dict built at the top of `proxy_request` (main.py
lines 40-46). -/
def baseHeaders (apiKey : String) : List (String × String) :=
  [("Authorization", "Bearer " ++ apiKey),
   ("Content-Type", "application/json"),
   ("User-Agent", "OpenAI/Python 1.0.0"),
   ("Accept", "application/json"),
   ("Accept-Encoding", "gzip, deflate")]

/-- The copy-through loop of main.py lines 50-53, unrolled over
`safe_headers = ["x-request-id", "x-client-version"]`. -/
def buildOutboundHeaders (apiKey : String) (inbound : List (String × String)) :
    List (String × String) :=
  let h0 := baseHeaders apiKey
  let h1 := match inbound.lookup "x-request-id" with
    | some v => dictSet h0 "x-request-id" v
    | none => h0
  match inbound.lookup "x-client-version" with
  | some v => dictSet h1 "x-client-version" v
  | none => h1

/-- The outbound request assembled in `proxy_request` (headers, target URL
`OPENAI_API_URL + "/v1/" + path`, same method/body/query as inbound). -/
def buildOutbound (apiKey : String) (req : InboundRequest) (path : String) : OutboundRequest :=
  { method := req.method
    url := OPENAI_API_URL ++ "/v1/" ++ path
    headers := buildOutboundHeaders apiKey req.headers
    body := req.body
    query := req.query }

/-- `content-type` check of main.py line 90. -/
def contentTypeIsJson (ct : String) : Bool := strStartsWith ct "application/json"

/-- Content negotiation of main.py lines 89-96: parsed JSON verbatim when the
content type says JSON and parsing succeeds; a non-JSON diagnostic envelope
with a 1000-character preview otherwise; a parse-failure envelope when
`response.json()` raises. -/
def responseContent (r : UpstreamResponse) : Json :=
  if contentTypeIsJson r.contentType then
    match r.json with
    | some j => j
    | none => Json.obj [("error", Json.str "Failed to parse OpenAI response"),
                        ("status", Json.num r.status)]
  else
    Json.obj [("error", Json.str "Non-JSON response from OpenAI"),
              ("response", Json.str (strTake r.text 1000))]

/-- The response headers set on every successful proxy response
(main.py lines 81-86). -/
def proxyResponseHeaders : List (String × String) :=
  [("Content-Type", "application/json"),
   ("Access-Control-Allow-Origin", "*"),
   ("Access-Control-Allow-Methods", "GET, POST, PUT, DELETE, PATCH, OPTIONS"),
   ("Access-Control-Allow-Headers", "*")]

/-- Turning the dispatch outcome into the caller's response: the
`JSONResponse` of line 98 on success, and the `except` clauses of lines
104-112 on failure. -/
def proxyResponse : DispatchResult → HttpResponse
  | .success r =>
      { status := r.status, body := responseContent r, headers := proxyResponseHeaders }
  | .timeout => httpError 504 "Gateway Timeout"
  | .requestError => httpError 502 "Bad Gateway"
  | .otherError => httpError 500 "Internal Server Error"

/-- `proxy_request(request, path)` (main.py lines 31-112): build the
outbound request, perform exactly one dispatch, transform the result. -/
def proxy_request (apiKey : String) (req : InboundRequest) (path : String)
    (dispatch : OutboundRequest → DispatchResult) : RouteOutcome :=
  .proxied (buildOutbound apiKey req path)
    (proxyResponse (dispatch (buildOutbound apiKey req path)))

/-- The preflight `JSONResponse(content={}, headers=...)` returned for
OPTIONS requests (status defaults to 200). -/
def preflightResponse : HttpResponse :=
  { status := 200
    body := Json.obj []
    headers := [("Access-Control-Allow-Origin", "*"),
                ("Access-Control-Allow-Methods", "GET, POST, PUT, DELETE, PATCH, OPTIONS"),
                ("Access-Control-Allow-Headers", "*")] }

/-- `proxy_openai_v1` (main.py lines 115-127): the route `/v1/{path:path}`
with the captured remainder `path`. -/
def proxy_openai_v1 (apiKey : String) (req : InboundRequest) (path : String)
    (dispatch : OutboundRequest → DispatchResult) : RouteOutcome :=
  if req.method = .OPTIONS then .local preflightResponse
  else proxy_request apiKey req path dispatch

def system_routes : List String := ["", "health", "docs", "openapi.json", "redoc"]

/-- The exclusion test of main.py line 135. -/
def isExcludedPath (path : String) : Bool :=
  system_routes.contains path || strStartsWith path "docs" || strStartsWith path "openapi"

/-- `proxy_openai_direct` (main.py lines 130-149): the catch-all route
`/{path:path}`.  The system-route exclusion runs before the OPTIONS check. -/
def proxy_openai_direct (apiKey : String) (req : InboundRequest) (path : String)
    (dispatch : OutboundRequest → DispatchResult) : RouteOutcome :=
  if isExcludedPath path then .local (httpError 404 "Not found")
  else if req.method = .OPTIONS then .local preflightResponse
  else proxy_request apiKey req path dispatch

/-- `GET /` handler (main.py lines 21-23). -/
def rootResponse : HttpResponse :=
  { status := 200
    body := Json.obj [("status", Json.str "ok"), ("service", Json.str "OpenAI Proxy")]
    headers := [] }

/-- `GET|HEAD /health` handler (main.py lines 25-28); `bool(OPENAI_API_KEY)`
is the nonemptiness of the configured key. -/
def healthResponse (apiKey : String) : HttpResponse :=
  { status := 200
    body := Json.obj [("status", Json.str "healthy"),
                      ("openai_key_set", Json.bool (apiKey ≠ ""))]
    headers := [] }

/-- Matching of the Starlette pattern `/v1/{path:path}`: succeeds exactly on
paths of the form `v1/<rest>` and captures `<rest>`. -/
def splitV1 (path : String) : Option String :=
  match path.data with
  | 'v' :: '1' :: '/' :: rest => some ⟨rest⟩
  | _ => none

/-- The documentation endpoints FastAPI registers automatically inside
`FastAPI(...)` at main.py line 11 (default `openapi_url`, `docs_url`,
`redoc_url`), in registration order.  They are created before any
user-decorated route, are GET routes (plus Starlette's automatic HEAD),
and exact-match their paths. -/
def fastapiDocsPaths : List String :=
  ["openapi.json", "docs", "docs/oauth2-redirect", "redoc"]

/-- The framework-generated page served by an auto-registered
documentation endpoint.  Its body (Swagger UI / ReDoc HTML, or the
generated OpenAPI schema) comes from FastAPI, not from this repository;
only the 200 status and the locality of the response are modelled — the
body field carries the path as a placeholder. -/
def frameworkDocsResponse (path : String) : HttpResponse :=
  { status := 200, body := Json.str path, headers := [] }

/-- The route table in registration order with Starlette's
first-full-match semantics: the four documentation routes FastAPI
registers at app creation (GET/HEAD, main.py line 11), then the
user-decorated routes `/` (GET/HEAD), `/health` (GET/HEAD),
`/v1/{path:path}`, `/{path:path}`.  The `POST /test` route of main.py
line 152 is registered after the catch-all `/{path:path}`, which fully
matches `POST /test` with `path = "test"`, so the `/test` route is
shadowed and never reached; see `test_openai` below for its handler. -/
def routeRequest (apiKey : String) (req : InboundRequest)
    (dispatch : OutboundRequest → DispatchResult) : RouteOutcome :=
  if (req.method = .GET ∨ req.method = .HEAD) ∧ req.path ∈ fastapiDocsPaths then
    .local (frameworkDocsResponse req.path)
  else if (req.method = .GET ∨ req.method = .HEAD) ∧ req.path = "" then
    .local rootResponse
  else if (req.method = .GET ∨ req.method = .HEAD) ∧ req.path = "health" then
    .local (healthResponse apiKey)
  else
    match splitV1 req.path with
    | some rest => proxy_openai_v1 apiKey req rest dispatch
    | none => proxy_openai_direct apiKey req req.path dispatch

/-- The outbound target URL an inbound request produces, if any. -/
def outboundTarget (apiKey : String) (req : InboundRequest)
    (dispatch : OutboundRequest → DispatchResult) : Option String :=
  match routeRequest apiKey req dispatch with
  | .proxied out _ => some out.url
  | .local _ => none

/-- Python `len` on the JSON values it accepts (`len` raises a `TypeError`
on numbers, booleans and `None`). -/
def pyLen : Json → Option Nat
  | Json.arr xs => some xs.length
  | Json.str s => some s.length
  | Json.obj kvs => some kvs.length
  | _ => none

/-- Python `j.get(key, default)`: defaulting lookup on a dict; `.get` on a
non-dict value raises an `AttributeError`. -/
def dictGetD (j : Json) (key : String) (default : Json) : Option Json :=
  match j with
  | Json.obj kvs => some ((kvs.lookup key).getD default)
  | _ => none

/-- Outcome of the self-test's fixed upstream call `GET <base>/v1/models`
(main.py lines 156-163): a response carrying its status, the result of a
later `response.json()` (`Except` holds the decode-error message when
parsing raises) and the raw text, or an exception with message `str(e)`.
`httpx.TimeoutException` lands in the `exn` case like everything else,
since `test_openai` has only the one catch-all `except Exception`. -/
inductive TestDispatch
  | response (status : Nat) (json : Except String Json) (text : String)
  | exn (msg : String)

/-- The `except Exception` branch of main.py lines 181-186; FastAPI returns
the dict with HTTP status 200. -/
def testErrorResponse (msg : String) : HttpResponse :=
  { status := 200
    body := Json.obj [("status", Json.str "error"), ("error", Json.str msg),
                      ("message", Json.str "Failed to connect to OpenAI API")]
    headers := [] }

/-- `test_openai` (main.py lines 152-186).  Every returned dict travels with
HTTP status 200.  Exceptions raised after the call (JSON decoding, `.get` on
a non-dict, `len` on an unsized value) fall into the same catch-all branch;
the message strings of the latter two stand in for Python's own. -/
def test_openai (result : TestDispatch) : HttpResponse :=
  match result with
  | .exn msg => testErrorResponse msg
  | .response status json text =>
      if status = 200 then
        match json with
        | .error msg => testErrorResponse msg
        | .ok j =>
            match dictGetD j "data" (Json.arr []) with
            | none => testErrorResponse "AttributeError"
            | some d =>
                match pyLen d with
                | none => testErrorResponse "TypeError"
                | some n =>
                    { status := 200
                      body := Json.obj
                        [("status", Json.str "success"),
                         ("openai_status", Json.num 200),
                         ("models_count", Json.num n),
                         ("message", Json.str "OpenAI API connection successful")]
                      headers := [] }
      else
        { status := 200
          body := Json.obj
            [("status", Json.str "error"),
             ("openai_status", Json.num status),
             ("message", Json.str "OpenAI API returned error"),
             ("response", Json.str (strTake text 500))]
          headers := [] }

/-! ## Helper lemmas -/

/-- The Starlette pattern `/v1/{path:path}` matches `v1/<p>` and captures
`<p>`. -/
theorem splitV1_v1_append (p : String) : splitV1 ("v1/" ++ p) = some p := by
  cases p
  rfl

theorem v1_append_ne_empty (p : String) : ("v1/" ++ p) ≠ "" := by
  intro hp
  have h := splitV1_v1_append p
  rw [hp] at h
  exact Option.noConfusion h

theorem v1_append_ne_health (p : String) : ("v1/" ++ p) ≠ "health" := by
  intro hp
  have h := splitV1_v1_append p
  rw [hp] at h
  exact Option.noConfusion h

theorem not_excluded_ne (p : String) (h : isExcludedPath p = false) :
    p ≠ "" ∧ p ≠ "health" := by
  constructor <;> intro hp <;> rw [hp] at h <;> exact Bool.noConfusion h

/-- A path of the form `v1/<p>` never equals one of the framework
documentation paths. -/
theorem v1_append_not_docs (p : String) : ("v1/" ++ p) ∉ fastapiDocsPaths := by
  intro hmem
  have h := splitV1_v1_append p
  simp [fastapiDocsPaths] at hmem
  rcases hmem with heq | heq | heq | heq <;> rw [heq] at h <;> exact Option.noConfusion h

/-- A non-excluded path never equals one of the framework documentation
paths (all four are excluded by the catch-all's own check). -/
theorem not_excluded_not_docs (p : String) (hx : isExcludedPath p = false) :
    p ∉ fastapiDocsPaths := by
  intro hmem
  simp [fastapiDocsPaths] at hmem
  rcases hmem with rfl | rfl | rfl | rfl <;> exact Bool.noConfusion hx

/-- Every `.proxied` outcome of the router carries the headers built by
`buildOutboundHeaders` and the response computed from its own dispatch. -/
theorem routeRequest_proxied_inv (k : String) (req : InboundRequest)
    (d : OutboundRequest → DispatchResult) (out : OutboundRequest) (resp : HttpResponse)
    (h : routeRequest k req d = RouteOutcome.proxied out resp) :
    out.headers = buildOutboundHeaders k req.headers ∧ resp = proxyResponse (d out) := by
  unfold routeRequest proxy_openai_v1 proxy_openai_direct proxy_request at h
  repeat' split at h
  all_goals first
    | exact RouteOutcome.noConfusion h
    | · injection h with h1 h2
        subst h1
        subst h2
        exact ⟨rfl, rfl⟩

/-- `buildOutboundHeaders` reads the inbound headers only through the
lookups of the two allow-listed names. -/
theorem buildOutboundHeaders_congr (k : String) (hs1 hs2 : List (String × String))
    (h1 : hs1.lookup "x-request-id" = hs2.lookup "x-request-id")
    (h2 : hs1.lookup "x-client-version" = hs2.lookup "x-client-version") :
    buildOutboundHeaders k hs1 = buildOutboundHeaders k hs2 := by
  unfold buildOutboundHeaders
  rw [h1, h2]

theorem buildOutboundHeaders_lookup_auth (k : String) (hs : List (String × String)) :
    (buildOutboundHeaders k hs).lookup "Authorization" = some ("Bearer " ++ k) := by
  unfold buildOutboundHeaders
  cases hr : hs.lookup "x-request-id" <;> cases hv : hs.lookup "x-client-version" <;>
    simp [dictSet, baseHeaders, List.lookup]

/-- Removing inbound entries named `a` does not change the lookup of a
different name `b`. -/
theorem lookup_filter_ne (hs : List (String × String)) (a b : String)
    (hab : b ≠ a) :
    (hs.filter (fun kv => kv.1 != a)).lookup b = hs.lookup b := by
  induction hs with
  | nil => rfl
  | cons kv t ih =>
      by_cases hk : kv.1 = a
      · have hb : (b == a) = false := beq_eq_false_iff_ne.mpr hab
        simp [List.filter_cons, hk, List.lookup, hb, ih]
      · simp only [List.filter_cons]
        have hf : (kv.1 != a) = true := by simp [hk]
        rw [hf]
        simp only [List.lookup]
        cases hbk : b == kv.1 <;> simp [ih]

/-- None of the hop-specific inbound headers ever has an entry in the
outbound header dict. -/
theorem buildOutboundHeaders_no_hop (k : String) (hs : List (String × String)) :
    (buildOutboundHeaders k hs).lookup "host" = none ∧
    (buildOutboundHeaders k hs).lookup "content-length" = none ∧
    (buildOutboundHeaders k hs).lookup "content-encoding" = none ∧
    (buildOutboundHeaders k hs).lookup "transfer-encoding" = none := by
  unfold buildOutboundHeaders
  cases hr : hs.lookup "x-request-id" <;> cases hv : hs.lookup "x-client-version" <;>
    refine ⟨?_, ?_, ?_, ?_⟩ <;> simp [dictSet, baseHeaders, List.lookup]

/-! ## Claims -/

/-- C1: on every proxyable route the outbound Authorization header equals
`Bearer <configured credential>`, and the outbound header set is the one
that would be built had every inbound `authorization` entry been removed —
an inbound Authorization value is never forwarded upstream. -/
theorem C1_authorization_replaced (k : String) (req : InboundRequest)
    (d : OutboundRequest → DispatchResult) (out : OutboundRequest) (resp : HttpResponse)
    (h : routeRequest k req d = RouteOutcome.proxied out resp) :
    out.headers.lookup "Authorization" = some ("Bearer " ++ k) ∧
    out.headers =
      buildOutboundHeaders k (req.headers.filter (fun kv => kv.1 != "authorization")) := by
  obtain ⟨hh, -⟩ := routeRequest_proxied_inv k req d out resp h
  rw [hh]
  refine ⟨buildOutboundHeaders_lookup_auth k req.headers, ?_⟩
  exact (buildOutboundHeaders_congr k _ _
    (lookup_filter_ne _ _ _ (by decide))
    (lookup_filter_ne _ _ _ (by decide))).symm

/-- Witness for C1 at a request carrying a forged Authorization header. -/
theorem C1_authorization_replaced_witness :
    (buildOutbound "sk-abc"
        ⟨Method.POST, "chat/completions",
         [("authorization", "Bearer evil"), ("x-request-id", "rid")], "b", []⟩
        "chat/completions").headers.lookup "Authorization"
      = some ("Bearer " ++ "sk-abc") ∧
    (buildOutbound "sk-abc"
        ⟨Method.POST, "chat/completions",
         [("authorization", "Bearer evil"), ("x-request-id", "rid")], "b", []⟩
        "chat/completions").headers
      = buildOutboundHeaders "sk-abc"
          (([("authorization", "Bearer evil"), ("x-request-id", "rid")] :
             List (String × String)).filter (fun kv => kv.1 != "authorization")) :=
  C1_authorization_replaced "sk-abc"
    ⟨Method.POST, "chat/completions",
     [("authorization", "Bearer evil"), ("x-request-id", "rid")], "b", []⟩
    (fun _ => DispatchResult.timeout)
    (buildOutbound "sk-abc"
      ⟨Method.POST, "chat/completions",
       [("authorization", "Bearer evil"), ("x-request-id", "rid")], "b", []⟩
      "chat/completions")
    (httpError 504 "Gateway Timeout") rfl

/-- C2: two proxied requests agreeing on method, path, query, body and on
the inbound `x-request-id` and `x-client-version` headers produce identical
outbound header sets, and the hop-specific inbound headers (Host,
Content-Length, Content-Encoding, Transfer-Encoding) never appear in the
outbound request. -/
theorem C2_header_noninterference (k : String) (req1 req2 : InboundRequest)
    (d1 d2 : OutboundRequest → DispatchResult) (out1 out2 : OutboundRequest)
    (resp1 resp2 : HttpResponse)
    (hm : req1.method = req2.method) (hp : req1.path = req2.path)
    (hq : req1.query = req2.query) (hb : req1.body = req2.body)
    (hrid : req1.headers.lookup "x-request-id" = req2.headers.lookup "x-request-id")
    (hver : req1.headers.lookup "x-client-version" = req2.headers.lookup "x-client-version")
    (h1 : routeRequest k req1 d1 = RouteOutcome.proxied out1 resp1)
    (h2 : routeRequest k req2 d2 = RouteOutcome.proxied out2 resp2) :
    out1.headers = out2.headers ∧
    out1.headers.lookup "host" = none ∧
    out1.headers.lookup "content-length" = none ∧
    out1.headers.lookup "content-encoding" = none ∧
    out1.headers.lookup "transfer-encoding" = none := by
  obtain ⟨hh1, -⟩ := routeRequest_proxied_inv k req1 d1 out1 resp1 h1
  obtain ⟨hh2, -⟩ := routeRequest_proxied_inv k req2 d2 out2 resp2 h2
  rw [hh1, hh2]
  obtain ⟨n1, n2, n3, n4⟩ := buildOutboundHeaders_no_hop k req1.headers
  exact ⟨buildOutboundHeaders_congr k _ _ hrid hver, n1, n2, n3, n4⟩

/-- Witness for C2: same correlation headers, different Host/framing and
Authorization junk on each side. -/
theorem C2_header_noninterference_witness :
    (buildOutbound "sk"
        ⟨Method.POST, "embeddings",
         [("host", "proxy.example"), ("content-length", "42"),
          ("x-request-id", "rid")], "b", []⟩ "embeddings").headers
      = (buildOutbound "sk"
          ⟨Method.POST, "embeddings",
           [("transfer-encoding", "chunked"), ("content-encoding", "gzip"),
            ("authorization", "Bearer evil"), ("x-request-id", "rid")], "b", []⟩
          "embeddings").headers ∧
    (buildOutbound "sk"
        ⟨Method.POST, "embeddings",
         [("host", "proxy.example"), ("content-length", "42"),
          ("x-request-id", "rid")], "b", []⟩ "embeddings").headers.lookup "host" = none ∧
    (buildOutbound "sk"
        ⟨Method.POST, "embeddings",
         [("host", "proxy.example"), ("content-length", "42"),
          ("x-request-id", "rid")], "b", []⟩ "embeddings").headers.lookup "content-length"
      = none ∧
    (buildOutbound "sk"
        ⟨Method.POST, "embeddings",
         [("host", "proxy.example"), ("content-length", "42"),
          ("x-request-id", "rid")], "b", []⟩ "embeddings").headers.lookup "content-encoding"
      = none ∧
    (buildOutbound "sk"
        ⟨Method.POST, "embeddings",
         [("host", "proxy.example"), ("content-length", "42"),
          ("x-request-id", "rid")], "b", []⟩ "embeddings").headers.lookup "transfer-encoding"
      = none :=
  C2_header_noninterference "sk"
    ⟨Method.POST, "embeddings",
     [("host", "proxy.example"), ("content-length", "42"), ("x-request-id", "rid")], "b", []⟩
    ⟨Method.POST, "embeddings",
     [("transfer-encoding", "chunked"), ("content-encoding", "gzip"),
      ("authorization", "Bearer evil"), ("x-request-id", "rid")], "b", []⟩
    (fun _ => DispatchResult.timeout) (fun _ => DispatchResult.timeout)
    (buildOutbound "sk"
      ⟨Method.POST, "embeddings",
       [("host", "proxy.example"), ("content-length", "42"), ("x-request-id", "rid")],
       "b", []⟩ "embeddings")
    (buildOutbound "sk"
      ⟨Method.POST, "embeddings",
       [("transfer-encoding", "chunked"), ("content-encoding", "gzip"),
        ("authorization", "Bearer evil"), ("x-request-id", "rid")], "b", []⟩ "embeddings")
    (httpError 504 "Gateway Timeout") (httpError 504 "Gateway Timeout")
    rfl rfl rfl rfl rfl rfl rfl rfl

/-- C3: a failed dispatch is mapped to exactly the documented gateway
error — 504 `Gateway Timeout` on timeout, 502 `Bad Gateway` on a request
error, 500 `Internal Server Error` on anything else; no failure is
silently dropped. -/
theorem C3_dispatch_failure_mapping (k : String) (req : InboundRequest)
    (d : OutboundRequest → DispatchResult) (out : OutboundRequest) (resp : HttpResponse)
    (h : routeRequest k req d = RouteOutcome.proxied out resp) :
    (d out = DispatchResult.timeout →
      resp.status = 504 ∧ resp.body = Json.obj [("detail", Json.str "Gateway Timeout")]) ∧
    (d out = DispatchResult.requestError →
      resp.status = 502 ∧ resp.body = Json.obj [("detail", Json.str "Bad Gateway")]) ∧
    (d out = DispatchResult.otherError →
      resp.status = 500 ∧
        resp.body = Json.obj [("detail", Json.str "Internal Server Error")]) := by
  obtain ⟨-, hr⟩ := routeRequest_proxied_inv k req d out resp h
  subst hr
  refine ⟨fun ht => ?_, fun ht => ?_, fun ht => ?_⟩ <;> rw [ht] <;> exact ⟨rfl, rfl⟩

/-- Witness for C3 on a timing-out upstream. -/
theorem C3_dispatch_failure_mapping_witness :
    (proxyResponse ((fun _ => DispatchResult.timeout)
        (buildOutbound "sk" ⟨Method.GET, "models", [], "", []⟩ "models"))).status = 504 ∧
    (proxyResponse ((fun _ => DispatchResult.timeout)
        (buildOutbound "sk" ⟨Method.GET, "models", [], "", []⟩ "models"))).body
      = Json.obj [("detail", Json.str "Gateway Timeout")] :=
  (C3_dispatch_failure_mapping "sk" ⟨Method.GET, "models", [], "", []⟩
    (fun _ => DispatchResult.timeout)
    (buildOutbound "sk" ⟨Method.GET, "models", [], "", []⟩ "models")
    (proxyResponse ((fun _ => DispatchResult.timeout)
      (buildOutbound "sk" ⟨Method.GET, "models", [], "", []⟩ "models"))) rfl).1 rfl

/-- C4: a JSON upstream response with a parsable body is relayed verbatim —
the parsed body becomes the response content and the upstream status code
(4xx/5xx included) is passed through unchanged. -/
theorem C4_json_passthrough (k : String) (req : InboundRequest)
    (d : OutboundRequest → DispatchResult) (out : OutboundRequest) (resp : HttpResponse)
    (r : UpstreamResponse) (j : Json)
    (h : routeRequest k req d = RouteOutcome.proxied out resp)
    (hd : d out = DispatchResult.success r)
    (hct : contentTypeIsJson r.contentType = true)
    (hj : r.json = some j) :
    resp.status = r.status ∧ resp.body = j := by
  obtain ⟨-, hr⟩ := routeRequest_proxied_inv k req d out resp h
  subst hr
  rw [hd]
  exact ⟨rfl, by simp [proxyResponse, responseContent, hct, hj]⟩

/-- Witness for C4 on an upstream 404 with a JSON error body. -/
theorem C4_json_passthrough_witness :
    (proxyResponse ((fun _ => DispatchResult.success
        ⟨404, "application/json", "ignored",
         some (Json.obj [("error", Json.str "model not found")])⟩)
        (buildOutbound "sk" ⟨Method.GET, "models/x", [], "", []⟩ "models/x"))).status
      = 404 ∧
    (proxyResponse ((fun _ => DispatchResult.success
        ⟨404, "application/json", "ignored",
         some (Json.obj [("error", Json.str "model not found")])⟩)
        (buildOutbound "sk" ⟨Method.GET, "models/x", [], "", []⟩ "models/x"))).body
      = Json.obj [("error", Json.str "model not found")] :=
  C4_json_passthrough "sk" ⟨Method.GET, "models/x", [], "", []⟩
    (fun _ => DispatchResult.success
      ⟨404, "application/json", "ignored",
       some (Json.obj [("error", Json.str "model not found")])⟩)
    (buildOutbound "sk" ⟨Method.GET, "models/x", [], "", []⟩ "models/x")
    (proxyResponse ((fun _ => DispatchResult.success
      ⟨404, "application/json", "ignored",
       some (Json.obj [("error", Json.str "model not found")])⟩)
      (buildOutbound "sk" ⟨Method.GET, "models/x", [], "", []⟩ "models/x")))
    ⟨404, "application/json", "ignored",
     some (Json.obj [("error", Json.str "model not found")])⟩
    (Json.obj [("error", Json.str "model not found")])
    rfl rfl rfl rfl

/-- C7: a non-JSON upstream response yields the upstream status and a
diagnostic envelope with a preview of the text truncated to at most 1000
characters; a declared-JSON but unparsable body yields the upstream status
and an envelope carrying an error marker and that status. -/
theorem C7_diagnostic_envelopes (k : String) (req : InboundRequest)
    (d : OutboundRequest → DispatchResult) (out : OutboundRequest) (resp : HttpResponse)
    (r : UpstreamResponse)
    (h : routeRequest k req d = RouteOutcome.proxied out resp)
    (hd : d out = DispatchResult.success r) :
    (contentTypeIsJson r.contentType = false →
      resp.status = r.status ∧
      resp.body = Json.obj [("error", Json.str "Non-JSON response from OpenAI"),
                            ("response", Json.str (strTake r.text 1000))] ∧
      (strTake r.text 1000).length ≤ 1000) ∧
    (contentTypeIsJson r.contentType = true → r.json = none →
      resp.status = r.status ∧
      resp.body = Json.obj [("error", Json.str "Failed to parse OpenAI response"),
                            ("status", Json.num r.status)]) := by
  obtain ⟨-, hr⟩ := routeRequest_proxied_inv k req d out resp h
  subst hr
  rw [hd]
  constructor
  · intro hct
    refine ⟨rfl, by simp [proxyResponse, responseContent, hct], ?_⟩
    have : (strTake r.text 1000).length = ((r.text.data.take 1000 : List Char)).length := rfl
    rw [this, List.length_take]
    exact min_le_left _ _
  · intro hct hj
    exact ⟨rfl, by simp [proxyResponse, responseContent, hct, hj]⟩

/-- Witness for C7 on a `text/plain` 200 response. -/
theorem C7_diagnostic_envelopes_witness :
    (proxyResponse ((fun _ => DispatchResult.success ⟨200, "text/plain", "hello", none⟩)
        (buildOutbound "sk" ⟨Method.GET, "models", [], "", []⟩ "models"))).status = 200 ∧
    (proxyResponse ((fun _ => DispatchResult.success ⟨200, "text/plain", "hello", none⟩)
        (buildOutbound "sk" ⟨Method.GET, "models", [], "", []⟩ "models"))).body
      = Json.obj [("error", Json.str "Non-JSON response from OpenAI"),
                  ("response", Json.str (strTake "hello" 1000))] ∧
    (strTake "hello" 1000).length ≤ 1000 :=
  (C7_diagnostic_envelopes "sk" ⟨Method.GET, "models", [], "", []⟩
    (fun _ => DispatchResult.success ⟨200, "text/plain", "hello", none⟩)
    (buildOutbound "sk" ⟨Method.GET, "models", [], "", []⟩ "models")
    (proxyResponse ((fun _ => DispatchResult.success ⟨200, "text/plain", "hello", none⟩)
      (buildOutbound "sk" ⟨Method.GET, "models", [], "", []⟩ "models")))
    ⟨200, "text/plain", "hello", none⟩ rfl rfl).1 rfl

/-- The target URL produced by an inbound path of the form `v1/<p>`. -/
theorem outboundTarget_v1 (k : String) (m : Method) (p : String)
    (hs : List (String × String)) (b : String) (q : List (String × String))
    (d : OutboundRequest → DispatchResult) :
    outboundTarget k ⟨m, "v1/" ++ p, hs, b, q⟩ d =
      if m = Method.OPTIONS then none else some (OPENAI_API_URL ++ "/v1/" ++ p) := by
  have h0 : ¬((m = Method.GET ∨ m = Method.HEAD) ∧ ("v1/" ++ p : String) ∈ fastapiDocsPaths) :=
    fun hc => v1_append_not_docs p hc.2
  have h1 : ¬((m = Method.GET ∨ m = Method.HEAD) ∧ ("v1/" ++ p : String) = "") :=
    fun hc => v1_append_ne_empty p hc.2
  have h2 : ¬((m = Method.GET ∨ m = Method.HEAD) ∧ ("v1/" ++ p : String) = "health") :=
    fun hc => v1_append_ne_health p hc.2
  unfold outboundTarget routeRequest
  rw [if_neg h0, if_neg h1, if_neg h2]
  simp only [splitV1_v1_append]
  unfold proxy_openai_v1 proxy_request
  by_cases hm : m = Method.OPTIONS <;> simp [hm, buildOutbound]

/-- The target URL produced by an inbound path without the `v1/` prefix
that is not excluded. -/
theorem outboundTarget_direct (k : String) (m : Method) (p : String)
    (hs : List (String × String)) (b : String) (q : List (String × String))
    (d : OutboundRequest → DispatchResult)
    (hx : isExcludedPath p = false) (hp : splitV1 p = none) :
    outboundTarget k ⟨m, p, hs, b, q⟩ d =
      if m = Method.OPTIONS then none else some (OPENAI_API_URL ++ "/v1/" ++ p) := by
  obtain ⟨hne, hnh⟩ := not_excluded_ne p hx
  unfold outboundTarget routeRequest
  rw [if_neg (fun hc => not_excluded_not_docs p hx hc.2),
    if_neg (fun hc => hne hc.2), if_neg (fun hc => hnh hc.2)]
  simp only [hp]
  unfold proxy_openai_direct proxy_request
  by_cases hm : m = Method.OPTIONS <;> simp [hm, hx, buildOutbound]

/-- C5: for every supported method, an inbound `/v1/p` and an inbound `/p`
(`p` not excluded and without the prefix) produce the same outbound target,
namely `<base>/v1/p` whenever an outbound call is made at all; and an
inbound path that already starts with `v1/` gets exactly one `v1` prefix in
the outbound URL — never a doubled one. -/
theorem C5_v1_path_normalization (k : String) (m : Method) (p p2 : String)
    (hs : List (String × String)) (b : String) (q : List (String × String))
    (d : OutboundRequest → DispatchResult)
    (hx : isExcludedPath p = false) (hp : splitV1 p = none) :
    outboundTarget k ⟨m, "v1/" ++ p, hs, b, q⟩ d = outboundTarget k ⟨m, p, hs, b, q⟩ d ∧
    (m ≠ Method.OPTIONS →
      outboundTarget k ⟨m, "v1/" ++ p, hs, b, q⟩ d
        = some (OPENAI_API_URL ++ "/v1/" ++ p)) ∧
    (m ≠ Method.OPTIONS →
      outboundTarget k ⟨m, "v1/" ++ p2, hs, b, q⟩ d
        = some (OPENAI_API_URL ++ "/v1/" ++ p2)) := by
  refine ⟨?_, fun hm => ?_, fun hm => ?_⟩
  · rw [outboundTarget_v1, outboundTarget_direct k m p hs b q d hx hp]
  · rw [outboundTarget_v1, if_neg hm]
  · rw [outboundTarget_v1, if_neg hm]

/-- Witness for C5 at `p = "chat/completions"`, `p2 = "v1/nested"` (the
latter shows a path that itself starts with `v1/` is still given a single
prefix when reached through the `/v1/...` route). -/
theorem C5_v1_path_normalization_witness :
    outboundTarget "sk" ⟨Method.POST, "v1/" ++ "chat/completions", [], "", []⟩
        (fun _ => DispatchResult.timeout)
      = outboundTarget "sk" ⟨Method.POST, "chat/completions", [], "", []⟩
          (fun _ => DispatchResult.timeout) ∧
    outboundTarget "sk" ⟨Method.POST, "v1/" ++ "chat/completions", [], "", []⟩
        (fun _ => DispatchResult.timeout)
      = some (OPENAI_API_URL ++ "/v1/" ++ "chat/completions") ∧
    outboundTarget "sk" ⟨Method.POST, "v1/" ++ "v1/nested", [], "", []⟩
        (fun _ => DispatchResult.timeout)
      = some (OPENAI_API_URL ++ "/v1/" ++ "v1/nested") := by
  obtain ⟨w1, w2, w3⟩ := C5_v1_path_normalization "sk" Method.POST "chat/completions"
    "v1/nested" [] "" [] (fun _ => DispatchResult.timeout) rfl rfl
  exact ⟨w1, w2 (by decide), w3 (by decide)⟩

/-- C6 counterexample: `redoc/x` is prefixed by the documentation route
name `redoc`, yet the catch-all forwards it upstream (an outbound request
to `<base>/v1/redoc/x` is made) instead of returning 404 locally. -/
theorem C6_counterexample :
    strStartsWith "redoc/x" "redoc" = true ∧
    routeRequest "k" ⟨Method.GET, "redoc/x", [], "", []⟩ (fun _ => DispatchResult.timeout)
      = RouteOutcome.proxied
          (buildOutbound "k" ⟨Method.GET, "redoc/x", [], "", []⟩ "redoc/x")
          (httpError 504 "Gateway Timeout") ∧
    (buildOutbound "k" ⟨Method.GET, "redoc/x", [], "", []⟩ "redoc/x").url
      = "https://api.openai.com/v1/redoc/x" :=
  ⟨rfl, rfl, rfl⟩

/-- A path that is excluded (and avoids the framework documentation
routes, the GET/HEAD system handlers and the `/v1` route) makes the
catch-all answer 404 locally. -/
theorem routeRequest_excluded_404 (k : String) (m : Method) (p : String)
    (hs : List (String × String)) (b : String) (q : List (String × String))
    (d : OutboundRequest → DispatchResult)
    (hnd : ¬((m = Method.GET ∨ m = Method.HEAD) ∧ p ∈ fastapiDocsPaths))
    (hne : p ≠ "") (hnh : p ≠ "health") (hsp : splitV1 p = none)
    (hex : isExcludedPath p = true) :
    routeRequest k ⟨m, p, hs, b, q⟩ d = RouteOutcome.local (httpError 404 "Not found") := by
  unfold routeRequest
  rw [if_neg hnd, if_neg (fun hc => hne hc.2), if_neg (fun hc => hnh hc.2)]
  simp only [hsp]
  unfold proxy_openai_direct
  simp [hex]

/-- A path with `docs` or `openapi` as a character-prefix is nonempty, is
not `health`, does not match the `/v1/...` route, and is excluded. -/
theorem doc_path_facts (p : String)
    (h : strStartsWith p "docs" = true ∨ strStartsWith p "openapi" = true) :
    p ≠ "" ∧ p ≠ "health" ∧ splitV1 p = none ∧ isExcludedPath p = true := by
  have hfacts : p ≠ "" ∧ p ≠ "health" ∧ splitV1 p = none := by
    rcases h with h | h
    · obtain ⟨t, ht⟩ := List.isPrefixOf_iff_prefix.mp h
      refine ⟨?_, ?_, ?_⟩
      · intro hp
        rw [hp] at ht
        exact List.noConfusion ht
      · intro hp
        rw [hp] at ht
        simp at ht
      · cases p with
        | mk l =>
            simp only at ht
            rw [← ht]
            rfl
    · obtain ⟨t, ht⟩ := List.isPrefixOf_iff_prefix.mp h
      refine ⟨?_, ?_, ?_⟩
      · intro hp
        rw [hp] at ht
        exact List.noConfusion ht
      · intro hp
        rw [hp] at ht
        simp at ht
      · cases p with
        | mk l =>
            simp only at ht
            rw [← ht]
            rfl
  refine ⟨hfacts.1, hfacts.2.1, hfacts.2.2, ?_⟩
  unfold isExcludedPath
  rcases h with h | h <;> simp [h]

/-- C6 amended: a path prefixed by `docs` or `openapi`, or equal to
`redoc`, is always handled locally and never forwarded upstream: GET/HEAD
on one of the four framework documentation paths serves the
framework-generated page with status 200, and every other combination is
answered 404 by the catch-all's exclusion — for every dispatch function,
so no outbound call is made in either case.  A path strictly prefixed by
`redoc` (e.g. `redoc/x`) is NOT excluded and is forwarded (see the
counterexample). -/
theorem C6_doc_routes_local (k : String) (m : Method) (p : String)
    (hs : List (String × String)) (b : String) (q : List (String × String))
    (d : OutboundRequest → DispatchResult)
    (h : strStartsWith p "docs" = true ∨ strStartsWith p "openapi" = true ∨ p = "redoc") :
    (¬((m = Method.GET ∨ m = Method.HEAD) ∧ p ∈ fastapiDocsPaths) →
      routeRequest k ⟨m, p, hs, b, q⟩ d = RouteOutcome.local (httpError 404 "Not found")) ∧
    ((m = Method.GET ∨ m = Method.HEAD) ∧ p ∈ fastapiDocsPaths →
      routeRequest k ⟨m, p, hs, b, q⟩ d = RouteOutcome.local (frameworkDocsResponse p) ∧
      (frameworkDocsResponse p).status = 200) := by
  constructor
  · intro hnd
    rcases h with h | h | rfl
    · obtain ⟨h1, h2, h3, h4⟩ := doc_path_facts p (Or.inl h)
      exact routeRequest_excluded_404 k m p hs b q d hnd h1 h2 h3 h4
    · obtain ⟨h1, h2, h3, h4⟩ := doc_path_facts p (Or.inr h)
      exact routeRequest_excluded_404 k m p hs b q d hnd h1 h2 h3 h4
    · exact routeRequest_excluded_404 k m _ hs b q d hnd (by decide) (by decide) rfl rfl
  · intro hc
    unfold routeRequest
    rw [if_pos hc]
    exact ⟨rfl, rfl⟩

/-- Witness for the amended C6: `POST /docs` gets the catch-all 404, and
`GET /docs` gets the framework documentation page with status 200. -/
theorem C6_doc_routes_local_witness :
    routeRequest "k" ⟨Method.POST, "docs", [], "", []⟩ (fun _ => DispatchResult.timeout)
      = RouteOutcome.local (httpError 404 "Not found") ∧
    routeRequest "k" ⟨Method.GET, "docs", [], "", []⟩ (fun _ => DispatchResult.timeout)
      = RouteOutcome.local (frameworkDocsResponse "docs") ∧
    (frameworkDocsResponse "docs").status = 200 :=
  ⟨(C6_doc_routes_local "k" Method.POST "docs" [] "" []
      (fun _ => DispatchResult.timeout) (Or.inl rfl)).1 (by decide),
    (C6_doc_routes_local "k" Method.GET "docs" [] "" []
      (fun _ => DispatchResult.timeout) (Or.inl rfl)).2 ⟨Or.inl rfl, by decide⟩⟩

/-- A path is proxyable when it matches the `/v1/...` route or reaches the
catch-all without being excluded. -/
def proxyablePath (p : String) : Bool :=
  (splitV1 p).isSome || !(isExcludedPath p)

/-- C8: an OPTIONS request to any proxyable path — with or without the
`v1/` prefix — short-circuits to a local 200 response with an empty JSON
body and the permissive cross-origin headers; no outbound call is made
(the result is the same for every dispatch function). -/
theorem C8_options_short_circuit (k : String) (p : String)
    (hs : List (String × String)) (b : String) (q : List (String × String))
    (d : OutboundRequest → DispatchResult)
    (h : proxyablePath p = true) :
    routeRequest k ⟨Method.OPTIONS, p, hs, b, q⟩ d = RouteOutcome.local preflightResponse ∧
    preflightResponse.status = 200 ∧
    preflightResponse.body = Json.obj [] ∧
    preflightResponse.headers =
      [("Access-Control-Allow-Origin", "*"),
       ("Access-Control-Allow-Methods", "GET, POST, PUT, DELETE, PATCH, OPTIONS"),
       ("Access-Control-Allow-Headers", "*")] := by
  refine ⟨?_, rfl, rfl, rfl⟩
  have hnd : ¬((Method.OPTIONS = Method.GET ∨ Method.OPTIONS = Method.HEAD) ∧
      p ∈ fastapiDocsPaths) :=
    fun hc => by rcases hc.1 with hh | hh <;> exact Method.noConfusion hh
  have hng : ¬((Method.OPTIONS = Method.GET ∨ Method.OPTIONS = Method.HEAD) ∧ p = "") :=
    fun hc => by rcases hc.1 with hh | hh <;> exact Method.noConfusion hh
  have hnh : ¬((Method.OPTIONS = Method.GET ∨ Method.OPTIONS = Method.HEAD) ∧ p = "health") :=
    fun hc => by rcases hc.1 with hh | hh <;> exact Method.noConfusion hh
  unfold routeRequest
  rw [if_neg hnd, if_neg hng, if_neg hnh]
  cases hsp : splitV1 p with
  | some rest =>
      simp only
      unfold proxy_openai_v1
      simp
  | none =>
      have hx : isExcludedPath p = false := by
        unfold proxyablePath at h
        rw [hsp] at h
        simpa using h
      simp only
      unfold proxy_openai_direct
      simp [hx]

/-- Witness for C8 with and without the prefix is covered at
`p = "v1/chat/completions"` (a `/v1/...` form). -/
theorem C8_options_short_circuit_witness :
    routeRequest "k" ⟨Method.OPTIONS, "v1/chat/completions", [], "", []⟩
        (fun _ => DispatchResult.timeout)
      = RouteOutcome.local preflightResponse ∧
    preflightResponse.status = 200 ∧
    preflightResponse.body = Json.obj [] ∧
    preflightResponse.headers =
      [("Access-Control-Allow-Origin", "*"),
       ("Access-Control-Allow-Methods", "GET, POST, PUT, DELETE, PATCH, OPTIONS"),
       ("Access-Control-Allow-Headers", "*")] :=
  C8_options_short_circuit "k" "v1/chat/completions" [] "" []
    (fun _ => DispatchResult.timeout) rfl

/-- C9 counterexample: when the self-test's upstream call raises
`httpx.TimeoutException`, the catch-all `except Exception` of `test_openai`
returns HTTP 200 with an error dict — not the claimed 504 Gateway
Timeout. -/
theorem C9_counterexample :
    (test_openai (TestDispatch.exn "httpx.TimeoutException")).status = 200 ∧
    (test_openai (TestDispatch.exn "httpx.TimeoutException")).status ≠ 504 ∧
    (test_openai (TestDispatch.exn "httpx.TimeoutException")).body
      = Json.obj [("status", Json.str "error"),
                  ("error", Json.str "httpx.TimeoutException"),
                  ("message", Json.str "Failed to connect to OpenAI API")] :=
  ⟨rfl, by decide, rfl⟩

/-- C9 amended: every exception of the self-test's upstream call — a
timeout of its 30-second deadline included — is answered with HTTP status
200 and the error dict `status: error / error: <message> / message: Failed
to connect to OpenAI API`; the failure is never classified as a 504
Gateway Timeout. -/
theorem C9_selftest_exception_is_200 (msg : String) :
    test_openai (TestDispatch.exn msg) = testErrorResponse msg ∧
    (test_openai (TestDispatch.exn msg)).status = 200 :=
  ⟨rfl, rfl⟩

/-- C10: POST/PUT/DELETE/PATCH on the system routes `/` and `/health` fall
through to the catch-all, whose system-route exclusion answers 404 locally;
no outbound call is made (same result for every dispatch). -/
theorem C10_system_routes_404 (k : String) (m : Method) (p : String)
    (hs : List (String × String)) (b : String) (q : List (String × String))
    (d : OutboundRequest → DispatchResult)
    (hm : m = Method.POST ∨ m = Method.PUT ∨ m = Method.DELETE ∨ m = Method.PATCH)
    (hp : p = "" ∨ p = "health") :
    routeRequest k ⟨m, p, hs, b, q⟩ d = RouteOutcome.local (httpError 404 "Not found") := by
  have hmg : ¬(m = Method.GET ∨ m = Method.HEAD) := by
    rcases hm with rfl | rfl | rfl | rfl <;> rintro (hh | hh) <;> exact Method.noConfusion hh
  rcases hp with rfl | rfl <;>
    · unfold routeRequest
      rw [if_neg (fun hc => hmg hc.1), if_neg (fun hc => hmg hc.1),
        if_neg (fun hc => hmg hc.1)]
      rfl

/-- Witness for C10 at `POST /health`. -/
theorem C10_system_routes_404_witness :
    routeRequest "k" ⟨Method.POST, "health", [], "", []⟩ (fun _ => DispatchResult.timeout)
      = RouteOutcome.local (httpError 404 "Not found") :=
  C10_system_routes_404 "k" Method.POST "health" [] "" []
    (fun _ => DispatchResult.timeout) (Or.inl rfl) (Or.inr rfl)

end ProxyRender
